import Mathlib

/-
Verification of the palloy simulation-workflow orchestrator (palloy.py).

The development shallowly embeds the data model and the operations of the
orchestrator:
  * `PalloyConfig` (the ConfigStore): its parameter dictionary is embedded as
    an association list from key strings to JSON scalar values, with the
    built-in defaults of `PalloyConfig.__init__`, the file overlay of
    `_load_config`, and the keyword-argument overlay of `update`.
  * the two descriptor rewrites `_update_cluster_config` / `_update_soc_config`:
    JSON documents are embedded as a tree type, Python dict item assignment and
    lookup as path operations returning `Option` (a failed lookup models the
    `KeyError`/`TypeError` that the `try` blocks of the source catch).
  * trace metric extraction `extract_metrics`: `str.splitlines`, the scan for
    the last non-blank line, and the regex `^(\d+):\s*(\d+):` are embedded as
    executable functions on strings.
  * the five-stage pipeline `run_full_workflow`: external processes are
    modelled by an environment that supplies exit codes and file contents; the
    pipeline is instrumented to record which stages run and which child
    processes are launched.
-/

namespace Palloy

/-- A JSON scalar value as stored in the palloy parameter dictionary. -/
inductive JVal where
  | num (n : Int)
  | str (s : String)
deriving DecidableEq, Repr

/-- First-match lookup in an association list keyed by strings. -/
def lookupKV {α : Type} : List (String × α) → String → Option α
  | [], _ => none
  | kv :: rest, key => if kv.1 = key then some kv.2 else lookupKV rest key

/-- Replace the value at a key that is already present; a key that is not
present is left alone (this is dict assignment guarded by `key in dict`). -/
def replaceKV {α : Type} (kvs : List (String × α)) (key : String) (v : α) :
    List (String × α) :=
  kvs.map (fun kv => if kv.1 = key then (key, v) else kv)

theorem replaceKV_cons {α : Type} (kv : String × α) (rest : List (String × α))
    (key : String) (v : α) :
    replaceKV (kv :: rest) key v =
      (if kv.1 = key then (key, v) else kv) :: replaceKV rest key v := by
  simp [replaceKV]

theorem lookupKV_replaceKV {α : Type} (kvs : List (String × α)) (key k : String) (v : α) :
    lookupKV (replaceKV kvs key v) k =
      if k = key then (lookupKV kvs key).map (fun _ => v) else lookupKV kvs k := by
  induction kvs with
  | nil => simp [lookupKV, replaceKV]
  | cons kv rest ih =>
    rw [replaceKV_cons]
    by_cases h1 : kv.1 = key
    · by_cases h2 : k = key
      · subst h2
        simp [lookupKV, h1, ih]
      · have hk : ¬ key = k := fun h => h2 h.symm
        have hkv : ¬ kv.1 = k := by rw [h1]; exact hk
        simp [lookupKV, h1, h2, hk, hkv, ih]
    · by_cases h2 : k = key
      · subst h2
        simp [lookupKV, h1, ih]
      · simp [lookupKV, h1, h2, ih]


theorem lookupKV_eq_none_iff {α : Type} (kvs : List (String × α)) (k : String) :
    lookupKV kvs k = none ↔ k ∉ kvs.map Prod.fst := by
  induction kvs with
  | nil => simp [lookupKV]
  | cons kv rest ih =>
    by_cases h : kv.1 = k
    · subst h; simp [lookupKV, ih]
    · simp [lookupKV, h, ih, Ne.symm h]

theorem replaceKV_of_lookup_none {α : Type} (kvs : List (String × α)) (key : String) (v : α)
    (h : lookupKV kvs key = none) : replaceKV kvs key v = kvs := by
  induction kvs with
  | nil => rfl
  | cons kv rest ih =>
    simp only [lookupKV] at h
    by_cases h1 : kv.1 = key
    · simp [h1] at h
    · simp only [replaceKV, List.map_cons, if_neg h1]
      simp only [h1, if_false] at h
      have := ih h
      simp only [replaceKV] at this
      rw [this]

/--
Default parameter dictionary of `PalloyConfig.__init__` (palloy.py lines
47-53), in insertion order.
-/
def default_params : List (String × JVal) :=
  [("num_cluster_cores", .num 8),
   ("l1_size_kb", .num 64),
   ("l2_size_kb", .num 1600),
   ("l2_num_banks", .num 4),
   ("workload_path", .str "./pulp-sdk/tests/hello/")]

/-- The five recognized parameter keys. -/
def recognized_keys : List String := default_params.map Prod.fst

/-- Guarded dict assignment `if key in self.params: self.params[key] = value`. -/
def set_param (ps : List (String × JVal)) (key : String) (v : JVal) :
    List (String × JVal) :=
  replaceKV ps key v

/-- `PalloyConfig.get` (palloy.py lines 79-81), without the fallback. -/
def get_param (ps : List (String × JVal)) (key : String) : Option JVal :=
  lookupKV ps key

/--
`PalloyConfig.update(**kwargs)` (palloy.py lines 73-77): for each keyword
argument whose value is not None and whose key is recognized (present in the
dictionary), overwrite the current value.
-/
def update (ps : List (String × JVal)) (kwargs : List (String × Option JVal)) :
    List (String × JVal) :=
  kwargs.foldl
    (fun acc kv =>
      match kv.2 with
      | some v => set_param acc kv.1 v
      | none => acc)
    ps

/-- The three possible states of the backing configuration file as seen by
`PalloyConfig._load_config`: not present, present but unreadable/not a JSON
object (the `except` branch), or parsed into a list of key/value items. -/
inductive ConfigFile where
  | absent
  | malformed
  | parsed (items : List (String × JVal))

/--
`PalloyConfig._load_config` (palloy.py lines 58-71): fold the loaded items
over the defaults, updating only keys already present; a missing or malformed
file retains all the defaults.
-/
def load_config : ConfigFile → List (String × JVal)
  | .absent => default_params
  | .malformed => default_params
  | .parsed items =>
      items.foldl (fun acc kv => set_param acc kv.1 kv.2) default_params

theorem get_set_param (ps : List (String × JVal)) (key k : String) (v : JVal) :
    get_param (set_param ps key v) k =
      if k = key then (get_param ps key).map (fun _ => v) else get_param ps k :=
  lookupKV_replaceKV ps key k v

theorem get_param_none_pres (ps : List (String × JVal)) (key k : String) (v : JVal) :
    get_param (set_param ps key v) k = none ↔ get_param ps k = none := by
  rw [get_set_param]
  by_cases h : k = key
  · subst h; simp
  · simp [h]

theorem update_singleton (ps : List (String × JVal)) (key : String) (v : JVal) :
    update ps [(key, some v)] = set_param ps key v := rfl

/-- Claim C4: `update` overwrites exactly those recognized keys whose provided
value is not absent and leaves every other key unchanged; a key given an
absent value keeps its prior value; unrecognized keys are silently dropped. -/
theorem config_update_frame (ps : List (String × JVal)) (key k : String) (v : JVal)
    (kwargs : List (String × Option JVal)) :
    (get_param (update ps [(key, some v)]) key = (get_param ps key).map (fun _ => v))
    ∧ (k ≠ key → get_param (update ps [(key, some v)]) k = get_param ps k)
    ∧ (update ps [(key, none)] = ps)
    ∧ (get_param ps key = none → update ps [(key, some v)] = ps)
    ∧ ((∀ kv ∈ kwargs, get_param ps kv.1 = none ∨ kv.2 = none) → update ps kwargs = ps) := by
  refine ⟨?_, ?_, ?_, ?_, ?_⟩
  · rw [update_singleton, get_set_param, if_pos rfl]
  · intro hk; rw [update_singleton, get_set_param, if_neg hk]
  · rfl
  · intro h; rw [update_singleton]; exact replaceKV_of_lookup_none ps key v h
  · intro h
    induction kwargs with
    | nil => rfl
    | cons kv rest ih =>
      have hstep : (match kv.2 with
          | some v => set_param ps kv.1 v
          | none => ps) = ps := by
        rcases h kv (List.mem_cons_self kv rest) with h1 | h1
        · cases hv : kv.2 with
          | none => rfl
          | some w => simpa [hv] using replaceKV_of_lookup_none ps kv.1 w h1
        · simp [h1]
      have : update ps (kv :: rest) = update (match kv.2 with
          | some v => set_param ps kv.1 v
          | none => ps) rest := by
        simp only [update, List.foldl_cons]
      rw [this, hstep]
      exact ih (fun x hx => h x (List.mem_cons_of_mem kv hx))

/-- Witness for C4: overwriting `l1_size_kb` with 128 changes it and leaves
`l2_size_kb` at 1600; a `none` value and an unrecognized key are no-ops. -/
theorem config_update_frame_witness :
    get_param (update default_params [("l1_size_kb", some (JVal.num 128))]) "l1_size_kb"
        = some (JVal.num 128)
    ∧ get_param (update default_params [("l1_size_kb", some (JVal.num 128))]) "l2_size_kb"
        = some (JVal.num 1600)
    ∧ update default_params [("l1_size_kb", none)] = default_params
    ∧ update default_params [("bogus_key", some (JVal.num 1))] = default_params := by
  have h := config_update_frame default_params "l1_size_kb" "l2_size_kb" (JVal.num 128) []
  refine ⟨?_, ?_, h.2.2.1, ?_⟩
  · rw [h.1]; decide
  · rw [h.2.1 (by decide)]; decide
  · exact (config_update_frame default_params "bogus_key" "x" (JVal.num 1) []).2.2.2.1 (by decide)

theorem load_foldl_not_mentioned (items : List (String × JVal)) :
    ∀ (ps : List (String × JVal)) (k : String), k ∉ items.map Prod.fst →
      get_param (items.foldl (fun acc kv => set_param acc kv.1 kv.2) ps) k = get_param ps k := by
  induction items with
  | nil => intro ps k _; rfl
  | cons kv rest ih =>
    intro ps k hk
    simp only [List.map_cons, List.mem_cons] at hk
    push_neg at hk
    rw [List.foldl_cons, ih _ k hk.2, get_set_param, if_neg hk.1]

theorem load_foldl_filter (items : List (String × JVal)) :
    ∀ (ps : List (String × JVal)),
      (∀ u, u ∉ recognized_keys → get_param ps u = none) →
      (items.filter (fun kv => decide (kv.1 ∈ recognized_keys))).foldl
          (fun acc kv => set_param acc kv.1 kv.2) ps
        = items.foldl (fun acc kv => set_param acc kv.1 kv.2) ps := by
  induction items with
  | nil => intro ps _; rfl
  | cons kv rest ih =>
    intro ps hps
    by_cases hr : kv.1 ∈ recognized_keys
    · rw [List.filter_cons_of_pos (by simpa using hr), List.foldl_cons, List.foldl_cons]
      exact ih _ (fun u hu => (get_param_none_pres ps kv.1 u kv.2).mpr (hps u hu))
    · rw [List.filter_cons_of_neg (by simpa using hr), List.foldl_cons]
      have : set_param ps kv.1 kv.2 = ps :=
        replaceKV_of_lookup_none ps kv.1 kv.2 (hps kv.1 hr)
      rw [this]
      exact ih ps hps

/-- Claim C5: `load` leaves any recognized key not mentioned in the file at its
built-in default, ignores unrecognized keys without affecting the recognized
ones, and retains all the defaults on a malformed or unreadable file. -/
theorem config_load_defaults (items : List (String × JVal)) (k : String) :
    (k ∉ items.map Prod.fst →
        get_param (load_config (.parsed items)) k = get_param default_params k)
    ∧ (load_config (.parsed (items.filter (fun kv => decide (kv.1 ∈ recognized_keys))))
        = load_config (.parsed items))
    ∧ load_config .malformed = default_params
    ∧ load_config .absent = default_params := by
  refine ⟨?_, ?_, rfl, rfl⟩
  · intro hk
    exact load_foldl_not_mentioned items default_params k hk
  · show (items.filter _).foldl _ default_params = items.foldl _ default_params
    refine load_foldl_filter items default_params ?_
    intro u hu
    exact (lookupKV_eq_none_iff default_params u).mpr hu

/-- Witness for C5: a file that mentions only `num_cluster_cores` (plus an
unrecognized key) leaves `l1_size_kb` at its default of 64, and the
unrecognized entry is dropped. -/
theorem config_load_defaults_witness :
    get_param (load_config (.parsed [("num_cluster_cores", JVal.num 2), ("bogus", JVal.num 7)]))
        "l1_size_kb" = some (JVal.num 64)
    ∧ load_config (ConfigFile.parsed
        ([("num_cluster_cores", JVal.num 2), ("bogus", JVal.num 7)].filter
          (fun kv => decide (kv.1 ∈ recognized_keys))))
      = load_config (.parsed [("num_cluster_cores", JVal.num 2), ("bogus", JVal.num 7)]) := by
  have h := config_load_defaults [("num_cluster_cores", JVal.num 2), ("bogus", JVal.num 7)] "l1_size_kb"
  refine ⟨?_, h.2.1⟩
  rw [h.1 (by decide)]; rfl

/-! ## Architecture descriptor JSON documents and the rewrites -/

/-- A JSON document, with object fields in insertion order (Python dicts). -/
inductive Json where
  | null
  | bool (b : Bool)
  | num (n : Int)
  | str (s : String)
  | arr (items : List Json)
  | obj (fields : List (String × Json))

/-- Python `d[key]` read on a JSON value: succeeds only on an object that has
the key (a missing key raises `KeyError`, indexing a non-dict raises
`TypeError`; both are modelled as `none` and caught by the source's `try`). -/
def getMem : Json → String → Option Json
  | .obj fs, key => lookupKV fs key
  | _, _ => none

/-- Python `d[key] = v` on a JSON value: replaces the value at an existing key
in place, appends a new last entry otherwise; fails on a non-dict. -/
def setMem : Json → String → Json → Option Json
  | .obj fs, key, v =>
      some (.obj (if (lookupKV fs key).isSome then replaceKV fs key v else fs ++ [(key, v)]))
  | _, _, _ => none

/-- Read along a path of keys. -/
def getPath : Json → List String → Option Json
  | j, [] => some j
  | j, key :: rest => (getMem j key).bind (fun c => getPath c rest)

/-- Write along a path of keys: every key but the last must already exist and
point at an object (`config["a"]["b"]["c"] = v`); the last is dict-assigned. -/
def setPath : Json → List String → Json → Option Json
  | _, [], v => some v
  | j, [key], v => setMem j key v
  | j, key :: rest, v =>
      (getMem j key).bind fun child =>
        (setPath child rest v).bind fun child2 => setMem j key child2

theorem lookupKV_append {α : Type} (kvs : List (String × α)) (key k : String) (v : α) :
    lookupKV (kvs ++ [(key, v)]) k =
      match lookupKV kvs k with
      | some w => some w
      | none => if key = k then some v else none := by
  induction kvs with
  | nil => simp [lookupKV]
  | cons kv rest ih =>
    by_cases h : kv.1 = k
    · simp [lookupKV, h]
    · simp [lookupKV, h, ih]

theorem getMem_setMem_self (j j' : Json) (key : String) (v : Json)
    (h : setMem j key v = some j') : getMem j' key = some v := by
  cases j with
  | obj fs =>
    simp only [setMem, Option.some.injEq] at h
    subst h
    cases hl : lookupKV fs key with
    | some w => simp [getMem, hl, lookupKV_replaceKV]
    | none => simp [getMem, hl, lookupKV_append]
  | null => simp [setMem] at h
  | bool b => simp [setMem] at h
  | num n => simp [setMem] at h
  | str s => simp [setMem] at h
  | arr l => simp [setMem] at h

theorem getMem_setMem_ne (j j' : Json) (key k : String) (v : Json) (hne : ¬ k = key)
    (h : setMem j key v = some j') : getMem j' k = getMem j k := by
  cases j with
  | obj fs =>
    simp only [setMem, Option.some.injEq] at h
    subst h
    have hkey : ¬ key = k := fun hh => hne hh.symm
    cases hl : lookupKV fs key with
    | some w => simp [getMem, hl, lookupKV_replaceKV, hne]
    | none =>
      cases hlk : lookupKV fs k with
      | some u => simp [getMem, hl, lookupKV_append, hlk]
      | none => simp [getMem, hl, lookupKV_append, hlk, hkey]
  | null => simp [setMem] at h
  | bool b => simp [setMem] at h
  | num n => simp [setMem] at h
  | str s => simp [setMem] at h
  | arr l => simp [setMem] at h

theorem setPath_cons_ne_nil (j : Json) (key : String) (rest : List String) (v : Json)
    (h : rest ≠ []) :
    setPath j (key :: rest) v =
      (getMem j key).bind (fun child =>
        (setPath child rest v).bind (fun child2 => setMem j key child2)) := by
  cases rest with
  | nil => exact absurd rfl h
  | cons a l => rfl

theorem getPath_setPath_self : ∀ (p : List String) (j j' v : Json),
    setPath j p v = some j' → getPath j' p = some v := by
  intro p
  induction p with
  | nil =>
    intro j j' v h
    simp only [setPath, Option.some.injEq] at h
    subst h
    rfl
  | cons key rest ih =>
    intro j j' v h
    cases rest with
    | nil =>
      simp only [setPath] at h
      have hg := getMem_setMem_self j j' key v h
      simp [getPath, hg]
    | cons k2 rest2 =>
      simp only [setPath] at h
      rw [Option.bind_eq_some] at h
      obtain ⟨child, hc, h⟩ := h
      rw [Option.bind_eq_some] at h
      obtain ⟨child2, hc2, hset⟩ := h
      have hg := getMem_setMem_self j j' key child2 hset
      have hrec := ih child child2 v hc2
      calc getPath j' (key :: k2 :: rest2)
          = (getMem j' key).bind (fun c => getPath c (k2 :: rest2)) := rfl
        _ = getPath child2 (k2 :: rest2) := by simp [hg]
        _ = some v := hrec

theorem getPath_setPath_diverge : ∀ (c : List String) (a b : String) (p q : List String)
    (j j' v : Json), ¬ b = a →
    setPath j (c ++ a :: p) v = some j' →
    getPath j' (c ++ b :: q) = getPath j (c ++ b :: q) := by
  intro c
  induction c with
  | nil =>
    intro a b p q j j' v hne h
    simp only [List.nil_append] at *
    cases p with
    | nil =>
      simp only [setPath] at h
      have hg := getMem_setMem_ne j j' a b v hne h
      simp [getPath, hg]
    | cons a2 p2 =>
      simp only [setPath] at h
      rw [Option.bind_eq_some] at h
      obtain ⟨child, hc, h⟩ := h
      rw [Option.bind_eq_some] at h
      obtain ⟨child2, hc2, hset⟩ := h
      have hg := getMem_setMem_ne j j' a b child2 hne hset
      simp [getPath, hg]
  | cons k c' ih =>
    intro a b p q j j' v hne h
    have hnn : c' ++ a :: p ≠ [] := by simp
    rw [List.cons_append, setPath_cons_ne_nil j k _ v hnn] at h
    rw [Option.bind_eq_some] at h
    obtain ⟨child, hc, h⟩ := h
    rw [Option.bind_eq_some] at h
    obtain ⟨child2, hc2, hset⟩ := h
    have hg := getMem_setMem_self j j' k child2 hset
    have hrec := ih a b p q child child2 v hne hc2
    show getPath j' (k :: (c' ++ b :: q)) = getPath j (k :: (c' ++ b :: q))
    calc getPath j' (k :: (c' ++ b :: q))
        = (getMem j' k).bind (fun c => getPath c (c' ++ b :: q)) := rfl
      _ = getPath child2 (c' ++ b :: q) := by simp [hg]
      _ = getPath child (c' ++ b :: q) := hrec
      _ = (getMem j k).bind (fun c => getPath c (c' ++ b :: q)) := by simp [hc]
      _ = getPath j (k :: (c' ++ b :: q)) := rfl

theorem getPath_setPath_diverge0 (a b : String) (p q : List String) (j j' v : Json)
    (hne : ¬ b = a) (h : setPath j (a :: p) v = some j') :
    getPath j' (b :: q) = getPath j (b :: q) :=
  getPath_setPath_diverge [] a b p q j j' v hne h

theorem getPath_setPath_diverge1 (k a b : String) (p q : List String) (j j' v : Json)
    (hne : ¬ b = a) (h : setPath j (k :: a :: p) v = some j') :
    getPath j' (k :: b :: q) = getPath j (k :: b :: q) :=
  getPath_setPath_diverge [k] a b p q j j' v hne h

theorem getPath_setPath_diverge2 (k1 k2 a b : String) (p q : List String) (j j' v : Json)
    (hne : ¬ b = a) (h : setPath j (k1 :: k2 :: a :: p) v = some j') :
    getPath j' (k1 :: k2 :: b :: q) = getPath j (k1 :: k2 :: b :: q) :=
  getPath_setPath_diverge [k1, k2] a b p q j j' v hne h

/-- Hex digits of a natural number, lowercase, as produced by Python `%x`. -/
def hexStr (n : Nat) : String := String.mk (Nat.toDigits 16 n)

/-- Pad a string on the left with zeros up to the given width. -/
def padZeros (w : Nat) (s : String) : String :=
  String.mk (List.replicate (w - s.length) '0') ++ s

/-- Python `f"0x{n:08x}"`: literal `0x`, then `n` formatted with `08x`
(lowercase hex, sign-aware zero padding to total width 8). -/
def pyHex08 (n : Int) : String :=
  if n < 0 then "0x-" ++ padZeros 7 (hexStr n.natAbs)
  else "0x" ++ padZeros 8 (hexStr n.toNat)

/--
`PalloySimulator._update_cluster_config` (palloy.py lines 180-209): read the
base cluster descriptor, set the core-count fields to `cores + 1`, set the L1
mapping size to the hex encoding of `l1_size_kb * 1024`; any failure along the
way (missing intermediate key, non-object) is the caught exception.
-/
def update_cluster_config (base : Json) (cores_per_cluster l1_size_kb : Int) : Option Json :=
  (setPath base ["nb_pe"] (.num (cores_per_cluster + 1))).bind fun c1 =>
  (setPath c1 ["icache", "config", "nb_cores"] (.num (cores_per_cluster + 1))).bind fun c2 =>
  (setPath c2 ["peripherals", "event_unit", "config", "nb_core"]
      (.num (cores_per_cluster + 1))).bind fun c3 =>
  setPath c3 ["l1", "mapping", "size"] (.str (pyHex08 (l1_size_kb * 1024)))

/--
`PalloySimulator._update_soc_config` (palloy.py lines 211-238): set the total
L2 size, the shared-L2 mapping size (total minus two reserved 0x8000 banks),
and the shared bank count.
-/
def update_soc_config (base : Json) (l2_size_kb l2_num_banks : Int) : Option Json :=
  (setPath base ["l2", "size"] (.str (pyHex08 (l2_size_kb * 1024)))).bind fun s1 =>
  (setPath s1 ["l2", "shared", "mapping", "size"]
      (.str (pyHex08 (l2_size_kb * 1024 - 0x00008000 * 2)))).bind fun s2 =>
  setPath s2 ["l2", "shared", "nb_banks"] (.num l2_num_banks)

/-- Claim C2: the descriptor rewrite writes the derived fields exactly —
`nb_pe`, the icache core count and the event-unit core count all equal
`cores + 1`; the L1 size field is the 8-hex-digit encoding of
`l1_size_kb * 1024` (64 KB gives "0x00010000"); the SoC total L2 size field is
the hex encoding of `l2_size_kb * 1024` (1600 KB gives "0x00190000"); the
shared size field is the total minus `2 * 0x8000` (giving "0x00180000"); the
shared bank count is a direct copy of `l2_num_banks`. -/
theorem descriptor_rewrite_derived_fields
    (cb sb : Json) (cores l1 l2 banks : Int) (cOut sOut : Json)
    (hc : update_cluster_config cb cores l1 = some cOut)
    (hs : update_soc_config sb l2 banks = some sOut) :
    getPath cOut ["nb_pe"] = some (.num (cores + 1))
    ∧ getPath cOut ["icache", "config", "nb_cores"] = some (.num (cores + 1))
    ∧ getPath cOut ["peripherals", "event_unit", "config", "nb_core"]
        = some (.num (cores + 1))
    ∧ getPath cOut ["l1", "mapping", "size"] = some (.str (pyHex08 (l1 * 1024)))
    ∧ getPath sOut ["l2", "size"] = some (.str (pyHex08 (l2 * 1024)))
    ∧ getPath sOut ["l2", "shared", "mapping", "size"]
        = some (.str (pyHex08 (l2 * 1024 - 0x00008000 * 2)))
    ∧ getPath sOut ["l2", "shared", "nb_banks"] = some (.num banks)
    ∧ pyHex08 (64 * 1024) = "0x00010000"
    ∧ pyHex08 (1600 * 1024) = "0x00190000"
    ∧ pyHex08 (1600 * 1024 - 0x00008000 * 2) = "0x00180000" := by
  simp only [update_cluster_config, Option.bind_eq_some] at hc
  obtain ⟨c1, h1, c2, h2, c3, h3, h4⟩ := hc
  simp only [update_soc_config, Option.bind_eq_some] at hs
  obtain ⟨s1, g1, s2, g2, g3⟩ := hs
  refine ⟨?_, ?_, ?_, ?_, ?_, ?_, ?_, by decide, by decide, by decide⟩
  · rw [getPath_setPath_diverge0 "l1" "nb_pe" _ _ c3 cOut _ (by decide) h4,
      getPath_setPath_diverge0 "peripherals" "nb_pe" _ _ c2 c3 _ (by decide) h3,
      getPath_setPath_diverge0 "icache" "nb_pe" _ _ c1 c2 _ (by decide) h2]
    exact getPath_setPath_self _ cb c1 _ h1
  · rw [getPath_setPath_diverge0 "l1" "icache" _ _ c3 cOut _ (by decide) h4,
      getPath_setPath_diverge0 "peripherals" "icache" _ _ c2 c3 _ (by decide) h3]
    exact getPath_setPath_self _ c1 c2 _ h2
  · rw [getPath_setPath_diverge0 "l1" "peripherals" _ _ c3 cOut _ (by decide) h4]
    exact getPath_setPath_self _ c2 c3 _ h3
  · exact getPath_setPath_self _ c3 cOut _ h4
  · rw [getPath_setPath_diverge1 "l2" "shared" "size" _ _ s2 sOut _ (by decide) g3,
      getPath_setPath_diverge1 "l2" "shared" "size" _ _ s1 s2 _ (by decide) g2]
    exact getPath_setPath_self _ sb s1 _ g1
  · rw [getPath_setPath_diverge2 "l2" "shared" "nb_banks" "mapping" _ _ s2 sOut _
      (by decide) g3]
    exact getPath_setPath_self _ s1 s2 _ g2
  · exact getPath_setPath_self _ s2 sOut _ g3

/-- A small cluster descriptor exercising all the rewritten paths. -/
def demoClusterBase : Json :=
  .obj [("nb_pe", .num 8),
        ("icache", .obj [("config", .obj [("nb_cores", .num 8)])]),
        ("peripherals", .obj [("event_unit", .obj [("config", .obj [("nb_core", .num 8)])])]),
        ("l1", .obj [("mapping", .obj [("size", .str "0x00010000")])])]

/-- A small SoC descriptor exercising all the rewritten paths. -/
def demoSocBase : Json :=
  .obj [("l2", .obj [("size", .str "0x00190000"),
                     ("shared", .obj [("mapping", .obj [("size", .str "0x00180000")]),
                                      ("nb_banks", .num 4)])])]

/-- Witness for C2: rewriting the demo descriptors with cores=4, l1=64 KB,
l2=1600 KB gives nb_pe 5 and shared-L2 size "0x00180000". -/
theorem descriptor_rewrite_derived_fields_witness :
    getPath ((update_cluster_config demoClusterBase 4 64).getD Json.null) ["nb_pe"]
        = some (Json.num 5)
    ∧ getPath ((update_soc_config demoSocBase 1600 4).getD Json.null)
        ["l2", "shared", "mapping", "size"] = some (Json.str "0x00180000") := by
  have hc : update_cluster_config demoClusterBase 4 64
      = some ((update_cluster_config demoClusterBase 4 64).getD Json.null) := by rfl
  have hs : update_soc_config demoSocBase 1600 4
      = some ((update_soc_config demoSocBase 1600 4).getD Json.null) := by rfl
  have H := descriptor_rewrite_derived_fields demoClusterBase demoSocBase 4 64 1600 4 _ _ hc hs
  refine ⟨H.1, ?_⟩
  have h6 := H.2.2.2.2.2.1
  have h10 := H.2.2.2.2.2.2.2.2.2
  rw [h10] at h6
  exact h6

/-! ## Trace parsing (`PalloySimulator.extract_metrics`, palloy.py lines 477-495) -/

/-- The characters Python `str.splitlines` treats as line boundaries. -/
def isLineBoundary (c : Char) : Bool :=
  c = '\n' || c = '\r' || c = '\x0b' || c = '\x0c' ||
  c = '\x1c' || c = '\x1d' || c = '\x1e' || c = '\x85' ||
  c = '\u2028' || c = '\u2029'

/-- Worker for `str.splitlines`: a boundary character closes the accumulated
line (with `\r\n` counting as one boundary); a final partial line is emitted
only if non-empty. -/
def splitAux : List Char → List Char → List String
  | [], acc => if acc.isEmpty then [] else [String.mk acc.reverse]
  | '\r' :: '\n' :: rest, acc => String.mk acc.reverse :: splitAux rest []
  | c :: rest, acc =>
      if isLineBoundary c then String.mk acc.reverse :: splitAux rest []
      else splitAux rest (c :: acc)

/-- Python `buffer.splitlines()`. -/
def pySplitlines (s : String) : List String := splitAux s.data []

/-- Whitespace characters of Python `str.strip()` and of the regex class
`\s`. -/
def isPyWhitespace (c : Char) : Bool :=
  c = ' ' || c = '\t' || c = '\n' || c = '\r' || c = '\x0b' || c = '\x0c' ||
  c = '\x1c' || c = '\x1d' || c = '\x1e' || c = '\x1f' || c = '\x85' || c = '\xa0' ||
  c = '\u1680' || c = '\u2000' || c = '\u2001' || c = '\u2002' || c = '\u2003' ||
  c = '\u2004' || c = '\u2005' || c = '\u2006' || c = '\u2007' || c = '\u2008' ||
  c = '\u2009' || c = '\u200a' || c = '\u2028' || c = '\u2029' || c = '\u202f' ||
  c = '\u205f' || c = '\u3000'

/-- Truthiness of `line.strip()`: the line holds a non-whitespace character. -/
def lineHasContent (l : String) : Bool :=
  l.data.any (fun c => !(isPyWhitespace c))

/-- `next((line for line in reversed(lines) if line.strip()), None)`: the last
line that is non-blank after trimming. -/
def lastNonBlank : List String → Option String
  | [] => none
  | l :: ls =>
      match lastNonBlank ls with
      | some r => some r
      | none => if lineHasContent l then some l else none

/-- The zero digit of every contiguous run of Unicode decimal digits
(category Nd, 66 runs of ten): Python's regex `\\d` on `str` patterns matches
exactly these characters, and `int()` gives each the value
`codepoint - run zero`. -/
def digitRangeZeros : List Nat :=
  [0x00030, 0x00660, 0x006f0, 0x007c0, 0x00966, 0x009e6, 0x00a66, 0x00ae6, 0x00b66, 0x00be6,
   0x00c66, 0x00ce6, 0x00d66, 0x00de6, 0x00e50, 0x00ed0, 0x00f20, 0x01040, 0x01090, 0x017e0,
   0x01810, 0x01946, 0x019d0, 0x01a80, 0x01a90, 0x01b50, 0x01bb0, 0x01c40, 0x01c50, 0x0a620,
   0x0a8d0, 0x0a900, 0x0a9d0, 0x0a9f0, 0x0aa50, 0x0abf0, 0x0ff10, 0x104a0, 0x10d30, 0x11066,
   0x110f0, 0x11136, 0x111d0, 0x112f0, 0x11450, 0x114d0, 0x11650, 0x116c0, 0x11730, 0x118e0,
   0x11950, 0x11c50, 0x11d50, 0x11da0, 0x16a60, 0x16ac0, 0x16b50, 0x1d7ce, 0x1d7d8, 0x1d7e2,
   0x1d7ec, 0x1d7f6, 0x1e140, 0x1e2f0, 0x1e950, 0x1fbf0]

/-- The decimal value of a Unicode decimal digit, `none` for any other
character. -/
def pyDigitVal (c : Char) : Option Nat :=
  (digitRangeZeros.find?
      (fun z => decide (z ≤ c.toNat) && decide (c.toNat < z + 10))).map
    (fun z => c.toNat - z)

/-- The regex class `\\d`: any Unicode decimal digit. -/
def isPyDigit (c : Char) : Bool := (pyDigitVal c).isSome

/-- Value of a matched digit group, as Python `int()` computes it (the group
may use the decimal digits of any script). -/
def natOfDigits (ds : List Char) : Nat :=
  ds.foldl (fun a c => 10 * a + (pyDigitVal c).getD 0) 0

/--
`re.match(r'^(\d+):\s*(\d+):', line)`: anchored at the start of the line, one
or more decimal digits (`\d`: any Unicode decimal digit), a colon, optional
whitespace, one or more decimal digits, a colon; everything after the second
colon is ignored.  The two greedy classes are followed by characters outside
the class, so maximal munch coincides with the backtracking regex semantics.
-/
def parseTraceLine (l : String) : Option (Nat × Nat) :=
  let cs := l.data
  let d1 := cs.takeWhile isPyDigit
  let r1 := cs.dropWhile isPyDigit
  if d1.isEmpty then none
  else
    match r1 with
    | ':' :: r2 =>
        let r3 := r2.dropWhile isPyWhitespace
        let d2 := r3.takeWhile isPyDigit
        let r4 := r3.dropWhile isPyDigit
        if d2.isEmpty then none
        else
          match r4 with
          | ':' :: _ => some (natOfDigits d1, natOfDigits d2)
          | _ => none
    | _ => none

/--
Metric extraction from the decoded trace tail buffer (palloy.py lines
477-495; the buffer is the last at most 8192 bytes of the trace file): split
into lines, scan from the end for the last non-blank line, and parse it.
Returns `(timestamp_ps, cycles)`; both stay absent when nothing parses.
-/
def extract_nums (buffer : String) : Option Nat × Option Nat :=
  match lastNonBlank (pySplitlines buffer) with
  | none => (none, none)
  | some l =>
      match parseTraceLine l with
      | some tc => (some tc.1, some tc.2)
      | none => (none, none)

theorem lastNonBlank_all_blank (bs : List String)
    (h : ∀ b ∈ bs, lineHasContent b = false) : lastNonBlank bs = none := by
  induction bs with
  | nil => rfl
  | cons b rest ih =>
    have hrest := ih (fun x hx => h x (List.mem_cons_of_mem b hx))
    simp [lastNonBlank, hrest, h b (List.mem_cons_self b rest)]

theorem lastNonBlank_append_blanks (ls bs : List String)
    (h : ∀ b ∈ bs, lineHasContent b = false) :
    lastNonBlank (ls ++ bs) = lastNonBlank ls := by
  induction ls with
  | nil => simpa using lastNonBlank_all_blank bs h
  | cons l rest ih => simp [lastNonBlank, ih]

theorem lastNonBlank_mem (ls : List String) (l : String)
    (h : lastNonBlank ls = some l) : l ∈ ls := by
  induction ls with
  | nil => simp [lastNonBlank] at h
  | cons x rest ih =>
    simp only [lastNonBlank] at h
    cases hr : lastNonBlank rest with
    | some r =>
      rw [hr] at h
      simp only [Option.some.injEq] at h
      subst h
      exact List.mem_cons_of_mem x (ih hr)
    | none =>
      rw [hr] at h
      by_cases hc : lineHasContent x
      · simp only [hc, if_true, Option.some.injEq] at h
        subst h
        exact List.mem_cons_self x rest
      · simp [hc] at h

/-- Claim C3: extraction scans from the end for the last non-blank line and
parses it against the pattern — the example line yields
`timestamp_ps = 3570976278` and `cycles = 104301`; trailing blank lines are
skipped; everything after the second colon is ignored; content with no
matching line leaves both numeric fields absent.  `\d` is any Unicode decimal
digit, so an Arabic-Indic digit line matches just as the program does. -/
theorem trace_extraction_last_line :
    extract_nums "3570976278: 104301: rest of line" = (some 3570976278, some 104301)
    ∧ extract_nums "3570976278: 104301: rest of line\n  \n\n"
        = (some 3570976278, some 104301)
    ∧ (∀ ls bs : List String, (∀ b ∈ bs, lineHasContent b = false) →
        lastNonBlank (ls ++ bs) = lastNonBlank ls)
    ∧ (∀ rest : String, parseTraceLine ("3570976278: 104301:" ++ rest)
        = some (3570976278, 104301))
    ∧ (∀ buffer : String, (∀ l ∈ pySplitlines buffer, parseTraceLine l = none) →
        extract_nums buffer = (none, none))
    ∧ parseTraceLine "\u0663\u0664\u0665: \u0661\u0662: x" = some (345, 12) := by
  refine ⟨by decide, by decide, lastNonBlank_append_blanks, fun rest => rfl, ?_, by decide⟩
  intro buffer h
  unfold extract_nums
  cases hl : lastNonBlank (pySplitlines buffer) with
  | none => rfl
  | some l =>
    have hp : parseTraceLine l = none := h l (lastNonBlank_mem _ l hl)
    simp [hp]

/-- Witness for C3: the general conjuncts applied at concrete inputs — a
blank-line suffix is skipped, appended text after the second colon is ignored,
and an unparseable buffer yields both fields absent. -/
theorem trace_extraction_last_line_witness :
    lastNonBlank (["3570976278: 104301: x"] ++ ["", "  "])
        = lastNonBlank ["3570976278: 104301: x"]
    ∧ parseTraceLine ("3570976278: 104301:" ++ " trailing words")
        = some (3570976278, 104301)
    ∧ extract_nums "no metrics here\n" = (none, none) := by
  refine ⟨trace_extraction_last_line.2.2.1 _ _ (by decide), trace_extraction_last_line.2.2.2.1 _, trace_extraction_last_line.2.2.2.2.1 _ (by decide)⟩

/-! ## The five-stage workflow (`PalloySimulator.run_full_workflow`) -/

/-- The metrics record built by `extract_metrics` (palloy.py lines 457-462),
fields in dict insertion order. -/
structure MetricsRec where
  num_cluster_cores : Int
  workload : String
  cycles : Option Nat
  timestamp_ps : Option Nat
deriving DecidableEq, Repr

/-- The environment a workflow run interacts with: the applied parameters, the
two base descriptors on disk, the exit codes the external build/simulate
commands would return, whether the workload directory exists, and the decoded
tail of the trace file (`none` = file absent). -/
structure Env where
  num_cluster_cores : Int
  l1_size_kb : Int
  l2_size_kb : Int
  l2_num_banks : Int
  workload : String
  clusterBase : Json
  socBase : Json
  rebuildExit : Int
  workloadExists : Bool
  recompileExit : Int
  simExit : Int
  trace : Option String

/-- `PalloySimulator.set_params` (palloy.py lines 334-358): both descriptor
rewrites must succeed. -/
def set_params (e : Env) : Bool :=
  (update_cluster_config e.clusterBase e.num_cluster_cores e.l1_size_kb).isSome
    && (update_soc_config e.socBase e.l2_size_kb e.l2_num_banks).isSome

/-- `PalloySimulator.rebuild_architecture` (palloy.py lines 360-383): success
is exit code 0 of the external build command. -/
def rebuild_architecture (e : Env) : Bool := e.rebuildExit == 0

/-- `PalloySimulator.recompile_workload` (palloy.py lines 385-418): fail
immediately if the workload path does not exist, otherwise success is exit
code 0 of the external build command. -/
def recompile_workload (e : Env) : Bool :=
  if e.workloadExists then e.recompileExit == 0 else false

/-- `PalloySimulator.run_simulation` (palloy.py lines 420-446): success is
exit code 0 of the external run command. -/
def run_simulation (e : Env) : Bool := e.simExit == 0

/-- `PalloySimulator.extract_metrics` (palloy.py lines 448-508): always
returns a record; the numeric fields come from the trace tail, staying absent
when the file is absent or nothing parses. -/
def extract_metrics (e : Env) : MetricsRec :=
  let nums := match e.trace with
    | none => ((none : Option Nat), (none : Option Nat))
    | some buffer => extract_nums buffer
  { num_cluster_cores := e.num_cluster_cores
    workload := e.workload
    cycles := nums.2
    timestamp_ps := nums.1 }

/-- The five stages of `run_full_workflow`. -/
inductive Stage where
  | set_params
  | rebuild_architecture
  | recompile_workload
  | run_simulation
  | extract_metrics
deriving DecidableEq, Repr

/-- The external child processes the workflow can launch. -/
inductive Proc where
  | rebuildMake
  | recompileMake
  | runMake
deriving DecidableEq, Repr

/--
`PalloySimulator.run_full_workflow` (palloy.py lines 510-551), instrumented:
the result carries the stages invoked in order, the child processes launched,
and the returned mapping (`none` is the empty dict `\x7b\x7d` returned on any
stage failure).  Each stage runs only when the previous one returned success;
`recompile_workload` launches its process only when the workload directory
exists.
-/
def run_full_workflow_instr (e : Env) : List Stage × List Proc × Option MetricsRec :=
  if set_params e = false then
    ([Stage.set_params], [], none)
  else if rebuild_architecture e = false then
    ([Stage.set_params, Stage.rebuild_architecture], [Proc.rebuildMake], none)
  else if recompile_workload e = false then
    ([Stage.set_params, Stage.rebuild_architecture, Stage.recompile_workload],
     [Proc.rebuildMake] ++ (if e.workloadExists then [Proc.recompileMake] else []),
     none)
  else if run_simulation e = false then
    ([Stage.set_params, Stage.rebuild_architecture, Stage.recompile_workload,
      Stage.run_simulation],
     [Proc.rebuildMake] ++ (if e.workloadExists then [Proc.recompileMake] else [])
       ++ [Proc.runMake],
     none)
  else
    ([Stage.set_params, Stage.rebuild_architecture, Stage.recompile_workload,
      Stage.run_simulation, Stage.extract_metrics],
     [Proc.rebuildMake] ++ (if e.workloadExists then [Proc.recompileMake] else [])
       ++ [Proc.runMake],
     some (extract_metrics e))

/-- The mapping returned by `run_full_workflow`. -/
def run_full_workflow (e : Env) : Option MetricsRec :=
  (run_full_workflow_instr e).2.2

/-- Claim C1: if Stage 2 fails (after Stage 1 succeeded) the run stops right
there with the empty mapping; each stage runs only if every earlier stage
reported success; any stage failure yields the empty result. -/
theorem workflow_stage_gating (e : Env) :
    (set_params e = true → rebuild_architecture e = false →
      run_full_workflow_instr e
        = ([Stage.set_params, Stage.rebuild_architecture], [Proc.rebuildMake], none))
    ∧ (Stage.rebuild_architecture ∈ (run_full_workflow_instr e).1 → set_params e = true)
    ∧ (Stage.recompile_workload ∈ (run_full_workflow_instr e).1 →
        set_params e = true ∧ rebuild_architecture e = true)
    ∧ (Stage.run_simulation ∈ (run_full_workflow_instr e).1 →
        set_params e = true ∧ rebuild_architecture e = true ∧ recompile_workload e = true)
    ∧ (Stage.extract_metrics ∈ (run_full_workflow_instr e).1 →
        set_params e = true ∧ rebuild_architecture e = true ∧ recompile_workload e = true
          ∧ run_simulation e = true)
    ∧ ((set_params e = false ∨ rebuild_architecture e = false
          ∨ recompile_workload e = false ∨ run_simulation e = false) →
        run_full_workflow e = none) := by
  cases h1 : set_params e <;> cases h2 : rebuild_architecture e <;>
    cases h3 : recompile_workload e <;> cases h4 : run_simulation e <;>
    simp [run_full_workflow_instr, run_full_workflow, h1, h2, h3, h4]

/-- A fully healthy demo environment (all stages succeed, empty trace file). -/
def demoEnvOk : Env :=
  { num_cluster_cores := 4
    l1_size_kb := 64
    l2_size_kb := 1600
    l2_num_banks := 4
    workload := "/work/hello"
    clusterBase := demoClusterBase
    socBase := demoSocBase
    rebuildExit := 0
    workloadExists := true
    recompileExit := 0
    simExit := 0
    trace := some "" }

/-- Demo environment whose architecture rebuild exits with code 2. -/
def demoEnvRebuildFail : Env :=
  { demoEnvOk with rebuildExit := 2 }

/-- Demo environment whose workload directory is missing. -/
def demoEnvNoWorkload : Env :=
  { demoEnvOk with workloadExists := false }

/-- Witness for C1: with the rebuild exiting 2, the run stops after Stage 2
with the empty mapping and only the rebuild process launched. -/
theorem workflow_stage_gating_witness :
    run_full_workflow_instr demoEnvRebuildFail
      = ([Stage.set_params, Stage.rebuild_architecture], [Proc.rebuildMake], none) :=
  (workflow_stage_gating demoEnvRebuildFail).1 (by decide) (by decide)

/-- Claim C7: a missing workload directory makes Stage 3 fail immediately, no
child process is ever launched for that stage, and the run yields the empty
mapping. -/
theorem recompile_missing_workload (e : Env) (h : e.workloadExists = false) :
    recompile_workload e = false
    ∧ Proc.recompileMake ∉ (run_full_workflow_instr e).2.1
    ∧ run_full_workflow e = none := by
  have hrw : recompile_workload e = false := by simp [recompile_workload, h]
  refine ⟨hrw, ?_, ?_⟩
  · cases h1 : set_params e <;> cases h2 : rebuild_architecture e <;>
      simp [run_full_workflow_instr, h1, h2, h, hrw]
  · cases h1 : set_params e <;> cases h2 : rebuild_architecture e <;>
      simp [run_full_workflow, run_full_workflow_instr, h1, h2, hrw]

/-- Witness for C7. -/
theorem recompile_missing_workload_witness :
    recompile_workload demoEnvNoWorkload = false
    ∧ Proc.recompileMake ∉ (run_full_workflow_instr demoEnvNoWorkload).2.1
    ∧ run_full_workflow demoEnvNoWorkload = none :=
  recompile_missing_workload demoEnvNoWorkload rfl

theorem extract_nums_of_bind_none (buffer : String)
    (h : (lastNonBlank (pySplitlines buffer)).bind (fun l => parseTraceLine l) = none) :
    extract_nums buffer = (none, none) := by
  unfold extract_nums
  cases hl : lastNonBlank (pySplitlines buffer) with
  | none => rfl
  | some l =>
    rw [hl] at h
    simp only [Option.some_bind] at h
    simp [h]

/-- Claim C8: with the simulation exiting 0, an absent trace file, an empty
trace file or an unparseable last line is non-fatal — extraction still returns
a record carrying `num_cluster_cores` and `workload` with both numeric fields
absent, and the workflow returns that record rather than the empty mapping. -/
theorem unparseable_trace_nonfatal (e : Env)
    (h1 : set_params e = true) (h2 : rebuild_architecture e = true)
    (h3 : recompile_workload e = true) (h4 : run_simulation e = true)
    (ht : e.trace = none ∨ ∃ buffer, e.trace = some buffer ∧
        (lastNonBlank (pySplitlines buffer)).bind (fun l => parseTraceLine l) = none) :
    extract_metrics e
      = { num_cluster_cores := e.num_cluster_cores, workload := e.workload,
          cycles := none, timestamp_ps := none }
    ∧ run_full_workflow e = some (extract_metrics e)
    ∧ run_full_workflow e ≠ none := by
  have hm : extract_metrics e
      = { num_cluster_cores := e.num_cluster_cores, workload := e.workload,
          cycles := none, timestamp_ps := none } := by
    rcases ht with ht | ⟨buffer, hb, hn⟩
    · simp [extract_metrics, ht]
    · simp [extract_metrics, hb, extract_nums_of_bind_none buffer hn]
  have hr : run_full_workflow e = some (extract_metrics e) := by
    simp [run_full_workflow, run_full_workflow_instr, h1, h2, h3, h4]
  exact ⟨hm, hr, by simp [hr]⟩

/-- Witness for C8: in the healthy demo environment with an empty trace file,
the workflow succeeds and returns the record with both numeric fields
absent. -/
theorem unparseable_trace_nonfatal_witness :
    run_full_workflow demoEnvOk
      = some { num_cluster_cores := 4, workload := "/work/hello",
               cycles := none, timestamp_ps := none } := by
  have H := unparseable_trace_nonfatal demoEnvOk (by decide) (by decide) (by decide)
    (by decide) (Or.inr ⟨"", rfl, rfl⟩)
  rw [H.2.1, H.1]
  rfl

/-! ## Serialization (`json.dump`) and the descriptor files on disk -/

/-- Indentation of `json.dump(..., indent=4)` at nesting depth `d`. -/
def indentStr (d : Nat) : String := String.mk (List.replicate (4 * d) ' ')

/-- Four lowercase hex digits. -/
def hex4 (n : Nat) : String := padZeros 4 (hexStr n)

/-- Escape of one character in a JSON string literal, as Python `json.dump`
does with its default `ensure_ascii=True`. -/
def escChar (c : Char) : String :=
  if c = '"' then "\\\""
  else if c = '\\' then "\\\\"
  else if c = '\n' then "\\n"
  else if c = '\r' then "\\r"
  else if c = '\t' then "\\t"
  else if c.toNat = 8 then "\\b"
  else if c.toNat = 12 then "\\f"
  else if c.toNat < 0x20 || c.toNat ≥ 0x7f then
    if c.toNat < 0x10000 then "\\u" ++ hex4 c.toNat
    else
      "\\u" ++ hex4 (0xd800 + (c.toNat - 0x10000) / 0x400)
        ++ "\\u" ++ hex4 (0xdc00 + (c.toNat - 0x10000) % 0x400)
  else String.singleton c

/-- A JSON string literal with quotes and escapes. -/
def quoteStr (s : String) : String :=
  "\"" ++ String.join (s.data.map escChar) ++ "\""

mutual

/-- `json.dumps(j, indent=4)` at nesting depth `d`. -/
def dumpJson (d : Nat) : Json → String
  | .null => "null"
  | .bool b => if b then "true" else "false"
  | .num n => toString n
  | .str s => quoteStr s
  | .arr [] => "[]"
  | .arr (j :: rest) =>
      "[\n" ++ dumpItems (d + 1) (j :: rest) ++ "\n" ++ indentStr d ++ "]"
  | .obj [] => "\x7b\x7d"
  | .obj (f :: rest) =>
      "\x7b\n" ++ dumpFields (d + 1) (f :: rest) ++ "\n" ++ indentStr d ++ "\x7d"

/-- Array items, one per line, comma separated. -/
def dumpItems (d : Nat) : List Json → String
  | [] => ""
  | [j] => indentStr d ++ dumpJson d j
  | j :: rest => indentStr d ++ dumpJson d j ++ ",\n" ++ dumpItems d rest

/-- Object fields, one per line, comma separated. -/
def dumpFields (d : Nat) : List (String × Json) → String
  | [] => ""
  | [(k, v)] => indentStr d ++ quoteStr k ++ ": " ++ dumpJson d v
  | (k, v) :: rest =>
      indentStr d ++ quoteStr k ++ ": " ++ dumpJson d v ++ ",\n" ++ dumpFields d rest

end

/-- The four descriptor files: the two immutable base templates and the two
active rewritten copies (`none` = not yet written). -/
structure FsState where
  clusterBase : Json
  socBase : Json
  clusterActive : Option String
  socActive : Option String

/-- `_update_cluster_config` as a file-system step: read the base template,
rewrite, serialize with `json.dump(config, f, indent=4)` into the separate
active file; on failure nothing is written and False is returned. -/
def write_cluster_config (s : FsState) (cores l1 : Int) : FsState × Bool :=
  match update_cluster_config s.clusterBase cores l1 with
  | some out => ({ s with clusterActive := some (dumpJson 0 out) }, true)
  | none => (s, false)

/-- `_update_soc_config` as a file-system step. -/
def write_soc_config (s : FsState) (l2 banks : Int) : FsState × Bool :=
  match update_soc_config s.socBase l2 banks with
  | some out => ({ s with socActive := some (dumpJson 0 out) }, true)
  | none => (s, false)

/-- `set_params` on the file system (palloy.py lines 350-358): cluster rewrite
then SoC rewrite, success only if both succeeded. -/
def set_params_fs (s : FsState) (cores l1 l2 banks : Int) : FsState × Bool :=
  let r1 := write_cluster_config s cores l1
  let r2 := write_soc_config r1.1 l2 banks
  (r2.1, r1.2 && r2.2)

/-- Claim C9: the rewrite never mutates the base templates, and performing the
rewrite twice with the same parameters is idempotent — both writes put the
same serialized bytes in the active files. -/
theorem descriptor_rewrite_idempotent (s : FsState) (cores l1 l2 banks : Int) :
    (set_params_fs s cores l1 l2 banks).1.clusterBase = s.clusterBase
    ∧ (set_params_fs s cores l1 l2 banks).1.socBase = s.socBase
    ∧ set_params_fs (set_params_fs s cores l1 l2 banks).1 cores l1 l2 banks
        = set_params_fs s cores l1 l2 banks
    ∧ (∀ out, update_cluster_config s.clusterBase cores l1 = some out →
        (set_params_fs s cores l1 l2 banks).1.clusterActive = some (dumpJson 0 out)
        ∧ (set_params_fs (set_params_fs s cores l1 l2 banks).1
            cores l1 l2 banks).1.clusterActive = some (dumpJson 0 out))
    ∧ (∀ out, update_soc_config s.socBase l2 banks = some out →
        (set_params_fs s cores l1 l2 banks).1.socActive = some (dumpJson 0 out)
        ∧ (set_params_fs (set_params_fs s cores l1 l2 banks).1
            cores l1 l2 banks).1.socActive = some (dumpJson 0 out)) := by
  cases hc : update_cluster_config s.clusterBase cores l1 <;>
    cases hs : update_soc_config s.socBase l2 banks <;>
    simp [set_params_fs, write_cluster_config, write_soc_config, hc, hs]

/-- Demo file system holding the two demo base templates. -/
def demoFs : FsState :=
  { clusterBase := demoClusterBase
    socBase := demoSocBase
    clusterActive := none
    socActive := none }

/-- Witness for C9: on the demo file system the second rewrite reproduces the
first exactly, the base is untouched, and the active file holds the
serialization of the rewritten document. -/
theorem descriptor_rewrite_idempotent_witness :
    set_params_fs (set_params_fs demoFs 4 64 1600 4).1 4 64 1600 4
      = set_params_fs demoFs 4 64 1600 4
    ∧ (set_params_fs demoFs 4 64 1600 4).1.clusterBase = demoFs.clusterBase
    ∧ (set_params_fs demoFs 4 64 1600 4).1.clusterActive
        = some (dumpJson 0 ((update_cluster_config demoClusterBase 4 64).getD .null)) := by
  have H := descriptor_rewrite_idempotent demoFs 4 64 1600 4
  exact ⟨H.2.2.1, H.1,
    (H.2.2.2.1 ((update_cluster_config demoClusterBase 4 64).getD .null) (by rfl)).1⟩

/-! ## Stage 4 runtime arguments and the constructor keywords (claim C6) -/

/-- The keyword parameters accepted by `PalloySimulator.__init__` (palloy.py
lines 96-111); any other keyword raises `TypeError` at the call. -/
def palloy_simulator_init_params : List String :=
  ["workload_path", "config", "target", "venv_dir", "gvsoc_dir", "sdk_dir",
   "trace_file", "cluster_config_file", "soc_config_file", "num_cluster_cores",
   "l1_size_kb", "l2_size_kb", "l2_num_banks", "palloy_config_file", "debug"]

/-- Whether a Python call passing the given keyword names is accepted by a
function whose keyword parameters are exactly `palloy_simulator_init_params`. -/
def accepts_keywords (given : List String) : Bool :=
  given.all (fun k => palloy_simulator_init_params.contains k)

/-- The keyword names of the `PalloySimulator(...)` construction in
src/examples/l2/test_l2.py lines 33-40. -/
def l2_test_keywords : List String :=
  ["workload_path", "num_cluster_cores", "l2_size_kb", "l2_num_banks",
   "trace_filter", "debug"]

/-- The runner arguments built by `run_simulation` (palloy.py lines 431-436):
fixed instruction trace to the trace-file path at DEBUG verbosity; the command
is a function of the trace-file path and core count alone — there is no input
through which a caller-supplied trace filter could enter. -/
def run_simulation_runner_args (trace_file : String) : String :=
  "--trace=insn:" ++ trace_file ++ " --trace-level=DEBUG --debug-mode"

/-- Claim C6 (refuted, code bug): the examples pass a `trace_filter` keyword,
but `PalloySimulator.__init__` accepts no such keyword — the call of
test_l2.py raises `TypeError` — and the runner arguments of Stage 4 are fixed,
with no filter ever inserted. -/
theorem trace_filter_unsupported :
    accepts_keywords l2_test_keywords = false
    ∧ "trace_filter" ∉ palloy_simulator_init_params
    ∧ run_simulation_runner_args "./traces.log"
        = "--trace=insn:./traces.log --trace-level=DEBUG --debug-mode" :=
  ⟨by decide, by decide, by decide⟩

/-! ## Saving results (claim C10) -/

/-- `self.last_results` starts as the empty dict (palloy.py line 178) and is
only ever replaced by a full metrics record in `extract_metrics`. -/
def initial_last_results : Option MetricsRec := none

def dumpOptNat : Option Nat → String
  | none => "null"
  | some n => toString n

/-- `json.dump(self.last_results, f, indent=2)` (palloy.py line 562): the
empty store serializes as the empty JSON object; a metrics record serializes
as its four fields in insertion order with 2-space indentation. -/
def save_results_content : Option MetricsRec → String
  | none => "\x7b\x7d"
  | some r =>
      "\x7b\n  \"num_cluster_cores\": " ++ toString r.num_cluster_cores
        ++ ",\n  \"workload\": " ++ quoteStr r.workload
        ++ ",\n  \"cycles\": " ++ dumpOptNat r.cycles
        ++ ",\n  \"timestamp_ps\": " ++ dumpOptNat r.timestamp_ps
        ++ "\n\x7d"

/-- `save_results` (palloy.py lines 553-563) opens the path with mode "w"
(truncating any existing file) and writes the serialized store: the resulting
file content does not depend on the prior content. -/
def save_results_write (prior : Option String) (lr : Option MetricsRec) :
    Option String :=
  some (save_results_content lr)

/-- Claim C10: calling `save_results` before any workflow has completed is not
a no-op — it writes exactly the empty JSON object, overwriting whatever file
was at the path. -/
theorem save_results_initial_empty (prior : Option String) :
    save_results_write prior initial_last_results = some "\x7b\x7d"
    ∧ save_results_content initial_last_results = "\x7b\x7d" :=
  ⟨rfl, rfl⟩

/-- Witness for C10: overwriting an existing file with the empty object. -/
theorem save_results_initial_empty_witness :
    save_results_write (some "old content") initial_last_results = some "\x7b\x7d" :=
  (save_results_initial_empty (some "old content")).1

end Palloy
